import Mathlib

/-!
Verification of the Sri Travels booking backend (src/server.js).

The file shallowly embeds the access-control middleware chain and the
route handlers of the Express application as pure Lean functions:

- HTTP requests carry only the pieces the guards inspect (the
  authorization header and the jwt_token cookie).
- External collaborators (the jwt verifier, the bcrypt hasher and
  comparator, the signer) are passed in as function parameters; what the
  code hands to them (payload fields, secret, expiry option) is modelled
  explicitly.
- The document store is a Lean list per collection; a store call that the
  JavaScript code awaits is modelled either as a pure list operation
  (when a claim is about state) or as an Except value (when a claim is
  about failure propagation, since an awaited rejection inside an async
  handler without try/catch escapes without a response in Express 4).
- JavaScript truthiness of optional strings (undefined or empty string is
  falsy) is modelled by optTruthy.
-/

namespace SriTravels

/-- Decoded token claims attached to the request by the authentication
guard: the fields the login route signs into the token. -/
structure Identity where
  id : String
  role : String
deriving DecidableEq, Repr

/-- An HTTP response is modelled as a status code and the single message
or error string of the JSON body. -/
abbrev Response := Nat × String

/-- User record, following the mongoose user schema of server.js. -/
structure User where
  id : String
  name : String
  phoneNumber : String
  password : String
  role : String
  isActive : Bool
deriving DecidableEq, Repr

/-- Booking record, following the mongoose booking schema of server.js.
The amount field is optional because the schema does not require it; a
missing amount is none. -/
structure Booking where
  id : String
  customerId : String
  customerName : String
  customerPhone : String
  vehicleId : Option String
  vehicleType : String
  fromLocation : String
  toLocation : String
  travelDate : Nat
  amount : Option Int
  status : String
deriving DecidableEq, Repr

/-- JavaScript truthiness of an optional string: undefined (none) and the
empty string are falsy, every other string is truthy. -/
def optTruthy : Option String → Bool
  | none => false
  | some s => !s.isEmpty

/-- The parts of an incoming request inspected by the authentication
guard: the authorization header and the jwt_token cookie. -/
structure Request where
  authHeader : Option String
  cookieJwt : Option String

/-- Outcome of the authentication middleware: a terminal rejection
response, or the decoded identity passed to the next middleware. -/
inductive AuthResult where
  | reject (status : Nat) (msg : String)
  | proceed (user : Identity)
deriving DecidableEq, Repr

/-- Accumulator recursion behind jsSplitSpace. -/
def jsSplitSpaceAux : List Char → List Char → List String
  | [], acc => [String.mk acc.reverse]
  | c :: cs, acc =>
    if c = ' ' then String.mk acc.reverse :: jsSplitSpaceAux cs []
    else jsSplitSpaceAux cs (c :: acc)

/-- The JavaScript expression s.split applied with a single-space
separator: splits the string at every space, keeping empty fragments, so
the empty string yields a singleton list holding the empty string. -/
def jsSplitSpace (s : String) : List String :=
  jsSplitSpaceAux s.data []

/-- Token location expression of authenticateToken in server.js:
req.cookies.jwt_token, or else element 1 of the authorization header
split at spaces (undefined when the header has no second word). -/
def tokenOf (r : Request) : Option String :=
  if optTruthy r.cookieJwt then r.cookieJwt
  else
    match r.authHeader with
    | some h => (jsSplitSpace h)[1]?
    | none => none

/-- The authenticateToken middleware of server.js. It first rejects with
status 401 and body error Invalid JWT when the authorization header is
absent or empty; then locates a token via tokenOf, rejecting with status
401 and body error Token missing when the located token is falsy; then
hands the token to the external jwt verifier, rejecting with status 403
and body error Token Expired when verification fails, and otherwise
attaching the decoded identity. -/
def authenticateToken (verify : String → Option Identity) (r : Request) : AuthResult :=
  if optTruthy r.authHeader then
    match tokenOf r with
    | some t =>
      if optTruthy (some t) then
        match verify t with
        | some user => .proceed user
        | none => .reject 403 "Token Expired"
      else .reject 401 "Token missing"
    | none => .reject 401 "Token missing"
  else .reject 401 "Invalid JWT"

/-- The authorizeRoles middleware factory of server.js: given the fixed
role allow-list of the route, reject with status 403 and body error
Access Denied when the attached role is not in the list, otherwise pass
through (none means call next with the request unchanged). -/
def authorizeRoles (roles : List String) (user : Identity) : Option Response :=
  if !(roles.contains user.role) then some (403, "Access Denied")
  else none

/-- A protected route of server.js: authenticateToken, then
authorizeRoles, then the handler, each guard short-circuiting with its
response and leaving the store state untouched. -/
def protectedRoute {σ : Type} (verify : String → Option Identity) (roles : List String)
    (handler : Identity → σ → Response × σ) (r : Request) (st : σ) : Response × σ :=
  match authenticateToken verify r with
  | .reject s m => ((s, m), st)
  | .proceed u =>
    match authorizeRoles roles u with
    | some resp => (resp, st)
    | none => handler u st

/-- The role allow-list of every protected endpoint of server.js, read
off the route registrations. -/
def routeTable : List (String × List String) :=
  [("/book", ["customer"]),
   ("/my-bookings", ["customer"]),
   ("/admin/bookings", ["admin", "director"]),
   ("/admin/update-status/:id", ["admin", "director"]),
   ("/admin/search/:phone", ["admin", "director"]),
   ("/director/create-admin", ["director"]),
   ("/director/add-vehicle", ["director"]),
   ("/director/create-driver", ["director"]),
   ("/director/revenue", ["director"]),
   ("/director/update-vehicle/:id", ["director"]),
   ("/director/all-users", ["director"]),
   ("/director/toggle-user/:id", ["director"]),
   ("/director/vehicles", ["director"])]

/-! Store-level semantics of the user-creating routes. Here the store
calls succeed; the store is the list of existing users and each route
returns its response together with the updated list. The external bcrypt
hash is a function parameter, and the id the store would assign to the
inserted document is a parameter. -/

/-- Handler of POST /register in server.js: look up an existing user by
phone number, answer 400 User Exists when found, otherwise hash the
password and insert a new user with role customer, answering 201. -/
def register (hash : String → String) (newId name phone pw : String)
    (users : List User) : Response × List User :=
  match users.find? (fun u => u.phoneNumber == phone) with
  | some _ => ((400, "User Exists"), users)
  | none =>
    let newUser : User :=
      { id := newId, name := name, phoneNumber := phone
        password := hash pw, role := "customer", isActive := true }
    ((201, "Customer Registered"), users ++ [newUser])

/-- Handler of POST /director/create-admin in server.js: same flow as
register but with role admin, message User already exists on conflict and
a 200 Admin Created Successfully answer. -/
def createAdmin (hash : String → String) (newId name phone pw : String)
    (users : List User) : Response × List User :=
  match users.find? (fun u => u.phoneNumber == phone) with
  | some _ => ((400, "User already exists"), users)
  | none =>
    let admin : User :=
      { id := newId, name := name, phoneNumber := phone
        password := hash pw, role := "admin", isActive := true }
    ((200, "Admin Created Successfully"), users ++ [admin])

/-- Handler of POST /director/create-driver in server.js: same flow as
create-admin but with role driver. -/
def createDriver (hash : String → String) (newId name phone pw : String)
    (users : List User) : Response × List User :=
  match users.find? (fun u => u.phoneNumber == phone) with
  | some _ => ((400, "User already exists"), users)
  | none =>
    let driver : User :=
      { id := newId, name := name, phoneNumber := phone
        password := hash pw, role := "driver", isActive := true }
    ((200, "Driver Created Successfully"), users ++ [driver])

/-- The uniqueness invariant of the user collection: no two users share a
phone number. -/
def UniquePhones (users : List User) : Prop :=
  users.Pairwise (fun a b => a.phoneNumber ≠ b.phoneNumber)

/-- What the login route hands to the external jwt signer: the payload
fields, the secret, and the expiry option. -/
structure SignedToken where
  payloadId : String
  payloadRole : String
  secret : String
  expiresIn : String
deriving DecidableEq, Repr

/-- Outcome of the login route: an error response, or the success body
carrying the message, the signed token and the full user record. -/
inductive LoginResult where
  | failure (status : Nat) (msg : String)
  | success (msg : String) (token : SignedToken) (user : User)
deriving DecidableEq, Repr

/-- Handler of POST /login in server.js: look up the user by phone
number, answering 400 Invalid User when absent; compare the supplied
password against the stored hash with the external bcrypt comparator,
answering 400 Invalid Password on mismatch; otherwise sign a token with
payload id and role, the hard-coded secret and a seven-day expiry, and
answer with the message, the token and the user record. -/
def login (compare : String → String → Bool) (phone pw : String)
    (users : List User) : LoginResult :=
  match users.find? (fun u => u.phoneNumber == phone) with
  | none => .failure 400 "Invalid User"
  | some user =>
    if compare pw user.password then
      .success "Login Success"
        { payloadId := user.id, payloadRole := user.role
          secret := "SRI_TRAVELS_SECRET", expiresIn := "7d" } user
    else .failure 400 "Invalid Password"

/-- Handler of GET /my-bookings in server.js: the store query
Booking.find with filter customerId equal to the id of the caller taken
from the token. -/
def myBookings (callerId : String) (bookings : List Booking) : List Booking :=
  bookings.filter (fun b => b.customerId == callerId)

/-- Handler of PUT /admin/update-status/:id in server.js: the store call
Booking.findByIdAndUpdate with the update document holding only the
status field, then the unconditional 200 Status Updated answer. The
matching document gets its status overwritten; every other document is
untouched. -/
def updateStatusRoute (id st : String) (bookings : List Booking) :
    Response × List Booking :=
  ((200, "Status Updated"),
   bookings.map (fun b => if b.id == id then { b with status := st } else b))

/-- The revenue response body of GET /director/revenue. -/
structure RevenueReport where
  totalCompletedTrips : Nat
  totalRevenue : Int
deriving DecidableEq, Repr

/-- Handler of GET /director/revenue in server.js: fetch the bookings
with status completed, then reduce over them summing amount with a
falsy-to-zero fallback, and answer with their count and the sum. -/
def revenueRoute (bookings : List Booking) : RevenueReport :=
  let completed := bookings.filter (fun b => b.status == "completed")
  { totalCompletedTrips := completed.length
    totalRevenue := completed.foldl (fun sum b => sum + b.amount.getD 0) 0 }

/-! Failure-propagation semantics. Each awaited store call is passed in
as an Except value (error means the promise rejected with that message).
A handler wrapped in try/catch turns an error into a 500 response with
the raw message; a handler without try/catch just propagates the error,
in which case Express 4 sends no response on its behalf. -/

/-- Handler of POST /register in server.js with fallible store calls:
the whole body sits in a try/catch whose catch answers 500 with the raw
error message. -/
def registerHandler (findOne : Except String (Option User))
    (hashPw : Except String String) (save : User → Except String Unit)
    (newId name phone : String) : Response :=
  let body : Except String Response :=
    match findOne with
    | .error e => .error e
    | .ok (some _) => .ok (400, "User Exists")
    | .ok none =>
      match hashPw with
      | .error e => .error e
      | .ok hashed =>
        match save { id := newId, name := name, phoneNumber := phone
                     password := hashed, role := "customer", isActive := true } with
        | .error e => .error e
        | .ok _ => .ok (201, "Customer Registered")
  match body with
  | .ok resp => resp
  | .error e => (500, e)

/-- Handler of POST /book in server.js with fallible store calls: the
whole body sits in a try/catch whose catch answers 500 with the raw
error message. The caller fetch and the booking insert are the store
calls; the inserted booking denormalizes the caller name and phone and
gets the schema default status pending. -/
def bookHandler (findById : Except String User)
    (save : Booking → Except String Unit) (newId : String)
    (vehicleId : Option String) (vehicleType fromLocation toLocation : String)
    (travelDate : Nat) (amount : Option Int) : Response :=
  let body : Except String Response :=
    match findById with
    | .error e => .error e
    | .ok user =>
      match save { id := newId, customerId := user.id, customerName := user.name
                   customerPhone := user.phoneNumber, vehicleId := vehicleId
                   vehicleType := vehicleType, fromLocation := fromLocation
                   toLocation := toLocation, travelDate := travelDate
                   amount := amount, status := "pending" } with
      | .error e => .error e
      | .ok _ => .ok (201, "Booking Created")
  match body with
  | .ok resp => resp
  | .error e => (500, e)

/-- Handler of PUT /director/toggle-user/:id in server.js with fallible
store calls: fetch the user, flip isActive, save, answer 200. The body
has no try/catch, so a rejected store call escapes as an error and no
response is produced. The modelled findById outcome is the found user;
the claim under study concerns the error path. -/
def toggleUserHandler (findById : Except String User)
    (save : User → Except String Unit) : Except String Response :=
  match findById with
  | .error e => .error e
  | .ok user =>
    let updated : User := { user with isActive := !user.isActive }
    match save updated with
    | .error e => .error e
    | .ok _ => .ok (200, "User status updated")

/-! Sample collaborators used by witness theorems. -/

/-- Sample verifier accepting every token as a customer identity. -/
def verifyCustomerW : String → Option Identity :=
  fun _ => some { id := "c1", role := "customer" }

/-- Sample verifier accepting every token as an admin identity. -/
def verifyAdminW : String → Option Identity :=
  fun _ => some { id := "a1", role := "admin" }

/-- Sample handler over a counter state, recording each invocation. -/
def handlerW : Identity → Nat → Response × Nat :=
  fun _ n => ((200, "ok"), n + 1)

/-- Sample request with a well-formed bearer header and no cookie. -/
def reqW : Request := { authHeader := some "Bearer t", cookieJwt := none }

/-- Sample verifier accepting exactly the token validtoken. -/
def verifyCookieTok : String → Option Identity :=
  fun t => if t == "validtoken" then some { id := "u1", role := "customer" } else none

/-- Sample verifier rejecting every token, as jwt.verify does on an
expired or tampered token. -/
def verifyNone : String → Option Identity := fun _ => none

/-- A nonempty string is truthy as an optional string. -/
theorem optTruthy_some (s : String) (h : s ≠ "") : optTruthy (some s) = true := by
  simp [optTruthy]
  exact Bool.eq_false_iff.mpr (fun hb => h ((String.isEmpty_iff s).mp hb))

/-- C1: for every protected endpoint of the route table, once the
authentication guard has attached an identity, a role outside the
allow-list of the endpoint is answered 403 Access Denied with the store
state untouched (the handler never runs), and a role inside the
allow-list reaches the handler unchanged. -/
theorem role_gate_exact :
    ∀ (ep : String) (roles : List String), (ep, roles) ∈ routeTable →
    ∀ (σ : Type) (verify : String → Option Identity)
      (handler : Identity → σ → Response × σ) (r : Request) (st : σ) (u : Identity),
    authenticateToken verify r = .proceed u →
    ((u.role ∉ roles →
        protectedRoute verify roles handler r st = ((403, "Access Denied"), st))
     ∧ (u.role ∈ roles →
        protectedRoute verify roles handler r st = handler u st)) := by
  intro ep roles _ σ verify handler r st u hauth
  unfold protectedRoute
  rw [hauth]
  refine ⟨fun hnot => ?_, fun hmem => ?_⟩
  · simp [authorizeRoles, hnot]
  · simp [authorizeRoles, hmem]

/-- C1 witness: on the admin bookings allow-list, a customer identity is
answered 403 Access Denied with the state untouched, while an admin
identity reaches the handler, which runs. -/
theorem role_gate_exact_witness :
    protectedRoute verifyCustomerW ["admin", "director"] handlerW reqW 0
      = ((403, "Access Denied"), 0)
    ∧ protectedRoute verifyAdminW ["admin", "director"] handlerW reqW 0
      = ((200, "ok"), 1) := by
  constructor
  · exact (role_gate_exact "/admin/bookings" ["admin", "director"] (by decide)
      Nat verifyCustomerW handlerW reqW 0 { id := "c1", role := "customer" }
      (by decide)).1 (by decide)
  · exact (role_gate_exact "/admin/bookings" ["admin", "director"] (by decide)
      Nat verifyAdminW handlerW reqW 0 { id := "a1", role := "admin" }
      (by decide)).2 (by decide)

/-- C10: a request without an authorization header is rejected by the
authentication guard with status 401 and message Invalid JWT, terminally
(the protected route answers that response and leaves the state
untouched, so no handler runs), and that message differs from the
message Token missing produced when a header exists but no usable token
is located. -/
theorem no_header_distinct_rejection :
    ∀ (verify : String → Option Identity) (cookie : Option String),
    (authenticateToken verify { authHeader := none, cookieJwt := cookie }
       = .reject 401 "Invalid JWT")
    ∧ (∀ (σ : Type) (roles : List String)
         (handler : Identity → σ → Response × σ) (st : σ),
        protectedRoute verify roles handler
          { authHeader := none, cookieJwt := cookie } st
          = ((401, "Invalid JWT"), st))
    ∧ ("Invalid JWT" ≠ "Token missing")
    ∧ (∀ h : String, h ≠ "" → optTruthy (jsSplitSpace h)[1]? = false →
        optTruthy cookie = false →
        authenticateToken verify { authHeader := some h, cookieJwt := cookie }
          = .reject 401 "Token missing") := by
  intro verify cookie
  refine ⟨rfl, fun σ roles handler st => rfl, by decide,
    fun h hne hsplit hcookie => ?_⟩
  cases hs : (jsSplitSpace h)[1]? with
  | none => simp [authenticateToken, tokenOf, optTruthy_some h hne, hcookie, hs]
  | some t =>
    rw [hs] at hsplit
    simp [authenticateToken, tokenOf, optTruthy_some h hne, hcookie, hs, hsplit]

/-- C10 witness: with no authorization header the guard answers Invalid
JWT; with the header Bearer (which yields no second word) and no cookie
it answers Token missing. -/
theorem no_header_distinct_rejection_witness :
    authenticateToken verifyNone { authHeader := none, cookieJwt := none }
      = .reject 401 "Invalid JWT"
    ∧ authenticateToken verifyNone { authHeader := some "Bearer", cookieJwt := none }
      = .reject 401 "Token missing" := by
  refine ⟨(no_header_distinct_rejection verifyNone none).1, ?_⟩
  exact (no_header_distinct_rejection verifyNone none).2.2.2 "Bearer"
    (by decide) (by decide) (by decide)

/-- C2 counterexample: a request carrying a valid token in the jwt_token
cookie but no authorization header is rejected with 401 Invalid JWT, not
authenticated, because the guard requires the header before consulting
the cookie. -/
theorem cookie_alone_not_authenticated :
    verifyCookieTok "validtoken" = some { id := "u1", role := "customer" }
    ∧ authenticateToken verifyCookieTok
        { authHeader := none, cookieJwt := some "validtoken" }
      = .reject 401 "Invalid JWT" := ⟨by decide, by decide⟩

/-- C2 amended: the guard locates the bearer token from the jwt_token
cookie or from the second space-separated word of the authorization
header, the cookie taking precedence when both are present; but an
authorization header must be present in every case, and a request whose
only token sits in the cookie is rejected with 401 Invalid JWT. -/
theorem token_location_requires_header :
    ∀ (verify : String → Option Identity) (hdr cookie : String) (u : Identity),
    hdr ≠ "" → cookie ≠ "" → verify cookie = some u →
    ((tokenOf { authHeader := some hdr, cookieJwt := some cookie } = some cookie
      ∧ authenticateToken verify { authHeader := some hdr, cookieJwt := some cookie }
          = .proceed u)
     ∧ (∀ (verify2 : String → Option Identity) (c2 : Option String),
         authenticateToken verify2 { authHeader := none, cookieJwt := c2 }
           = .reject 401 "Invalid JWT")
     ∧ (∀ (hdr2 t : String), hdr2 ≠ "" → (jsSplitSpace hdr2)[1]? = some t →
         t ≠ "" → ∀ u2, verify t = some u2 →
         authenticateToken verify { authHeader := some hdr2, cookieJwt := none }
           = .proceed u2)) := by
  intro verify hdr cookie u hhdr hcookie hverify
  have hct : optTruthy (some cookie) = true := optTruthy_some cookie hcookie
  have htok : tokenOf { authHeader := some hdr, cookieJwt := some cookie }
      = some cookie := by
    simp [tokenOf, hct]
  refine ⟨⟨htok, ?_⟩, fun verify2 c2 => rfl,
    fun hdr2 t hhdr2 hsplit ht u2 hv2 => ?_⟩
  · simp [authenticateToken, optTruthy_some hdr hhdr, htok, hct, hverify]
  · have htok2 : tokenOf { authHeader := some hdr2, cookieJwt := none }
        = some t := by
      simp [tokenOf, optTruthy, hsplit]
    simp [authenticateToken, optTruthy_some hdr2 hhdr2, htok2,
      optTruthy_some t ht, hv2]

/-- C2 amended witness: with both a header and a valid cookie token the
guard authenticates using the cookie token. -/
theorem token_location_requires_header_witness :
    authenticateToken verifyCookieTok
      { authHeader := some "Bearer abc", cookieJwt := some "validtoken" }
      = .proceed { id := "u1", role := "customer" } :=
  (token_location_requires_header verifyCookieTok "Bearer abc" "validtoken"
    { id := "u1", role := "customer" } (by decide) (by decide) (by decide)).1.2

/-- C3 counterexample: a request carrying a bearer token that the
verifier rejects is answered with status 403, not 401. -/
theorem invalid_token_status_403 :
    authenticateToken verifyNone { authHeader := some "Bearer tok", cookieJwt := none }
      = .reject 403 "Token Expired"
    ∧ (403 : Nat) ≠ 401 := ⟨by decide, by decide⟩

/-- C3 amended: whenever a truthy token is located but the verifier
rejects it, the authentication guard fails terminally with message Token
Expired and HTTP status 403, diverging from the 401 status used for
missing tokens. -/
theorem verify_failure_reports_403 :
    ∀ (verify : String → Option Identity) (r : Request) (t : String),
    optTruthy r.authHeader = true → tokenOf r = some t → t ≠ "" →
    verify t = none →
    authenticateToken verify r = .reject 403 "Token Expired" := by
  intro verify r t hhdr htok ht hv
  simp [authenticateToken, hhdr, htok, optTruthy_some t ht, hv]

/-- C3 amended witness: the rejecting verifier on a concrete bearer
request yields the 403 Token Expired rejection. -/
theorem verify_failure_reports_403_witness :
    authenticateToken verifyNone { authHeader := some "Bearer tok", cookieJwt := none }
      = .reject 403 "Token Expired" :=
  verify_failure_reports_403 verifyNone
    { authHeader := some "Bearer tok", cookieJwt := none } "tok"
    (by decide) (by decide) (by decide) (by decide)

/-! Sample store contents used by witness theorems. -/

/-- Sample stored user. -/
def userW : User :=
  { id := "u1", name := "Asha", phoneNumber := "999"
    password := "h", role := "customer", isActive := true }

/-- Sample user collection holding one user. -/
def usersW : List User := [userW]

/-- Sample booking of customer c1. -/
def bW : Booking :=
  { id := "b1", customerId := "c1", customerName := "Asha"
    customerPhone := "999", vehicleId := none, vehicleType := "Bus"
    fromLocation := "A", toLocation := "B", travelDate := 0
    amount := some 5, status := "pending" }

/-- Sample booking of another customer. -/
def bOtherW : Booking := { bW with id := "b2", customerId := "c2" }

/-- Sample booking collection with two completed trips, one of them with
a missing amount, and one pending trip. -/
def bookingsRevW : List Booking :=
  [{ bW with status := "completed" },
   { bW with id := "b2", amount := none, status := "completed" },
   { bW with id := "b3", amount := some 9 }]

/-- Appending a user whose phone number clashes with nobody preserves
the uniqueness invariant. -/
theorem uniquePhones_append (users : List User) (u : User)
    (h : UniquePhones users)
    (hn : ∀ v ∈ users, v.phoneNumber ≠ u.phoneNumber) :
    UniquePhones (users ++ [u]) := by
  unfold UniquePhones at h ⊢
  rw [List.pairwise_append]
  refine ⟨h, List.pairwise_singleton _ _, fun a ha b hb => ?_⟩
  simp only [List.mem_singleton] at hb
  subst hb
  exact hn a ha

/-- C4: each of the three user-creating routes preserves the phone
uniqueness invariant, and each of them answers its conflict response,
leaving the store untouched, whenever some user already holds the given
phone number. -/
theorem user_creation_unique_phones :
    ∀ (hash : String → String) (newId name phone pw : String) (users : List User),
    UniquePhones users →
    (UniquePhones (register hash newId name phone pw users).2
     ∧ UniquePhones (createAdmin hash newId name phone pw users).2
     ∧ UniquePhones (createDriver hash newId name phone pw users).2
     ∧ ((∃ u ∈ users, u.phoneNumber = phone) →
         (register hash newId name phone pw users = ((400, "User Exists"), users)
          ∧ createAdmin hash newId name phone pw users
              = ((400, "User already exists"), users)
          ∧ createDriver hash newId name phone pw users
              = ((400, "User already exists"), users)))) := by
  intro hash newId name phone pw users huniq
  cases hfind : users.find? (fun u => u.phoneNumber == phone) with
  | some w =>
    refine ⟨?_, ?_, ?_, fun _ => ?_⟩ <;>
      simp [register, createAdmin, createDriver, hfind, huniq]
  | none =>
    have hn : ∀ v ∈ users, v.phoneNumber ≠ phone := by
      intro v hv
      have := List.find?_eq_none.mp hfind v hv
      simpa using this
    refine ⟨?_, ?_, ?_, fun hex => ?_⟩
    · simp only [register, hfind]
      exact uniquePhones_append users _ huniq (fun v hv => by simpa using hn v hv)
    · simp only [createAdmin, hfind]
      exact uniquePhones_append users _ huniq (fun v hv => by simpa using hn v hv)
    · simp only [createDriver, hfind]
      exact uniquePhones_append users _ huniq (fun v hv => by simpa using hn v hv)
    · obtain ⟨u, hu, hph⟩ := hex
      exact absurd hph (hn u hu)

/-- C4 witness: inserting a fresh phone number keeps the invariant, and
re-registering the stored phone number is answered User Exists with the
store untouched. -/
theorem user_creation_unique_phones_witness :
    UniquePhones (register (fun s => s) "u2" "B" "888" "pw" usersW).2
    ∧ register (fun s => s) "u2" "B" "999" "pw" usersW
        = ((400, "User Exists"), usersW) := by
  constructor
  · exact (user_creation_unique_phones (fun s => s) "u2" "B" "888" "pw" usersW
      (by simp [UniquePhones, usersW])).1
  · exact ((user_creation_unique_phones (fun s => s) "u2" "B" "999" "pw" usersW
      (by simp [UniquePhones, usersW])).2.2.2
      ⟨userW, by simp [usersW], by decide⟩).1

/-- Under the uniqueness invariant, a stored user holding the looked-up
phone number is the one the find-one store call returns. -/
theorem find?_phone_of_mem (users : List User) (u : User) (phone : String)
    (huniq : UniquePhones users) (hu : u ∈ users) (hph : u.phoneNumber = phone) :
    users.find? (fun v => v.phoneNumber == phone) = some u := by
  induction users with
  | nil => cases hu
  | cons a l ih =>
    by_cases hpa : a.phoneNumber = phone
    · rw [List.find?_cons_of_pos _ (by simp [hpa])]
      rcases List.mem_cons.mp hu with rfl | hul
      · rfl
      · have hne := (List.pairwise_cons.mp huniq).1 u hul
        rw [hph] at hne
        exact absurd hpa hne
    · rw [List.find?_cons_of_neg _ (by simp [hpa])]
      rcases List.mem_cons.mp hu with rfl | hul
      · exact absurd hph hpa
      · exact ih (List.pairwise_cons.mp huniq).2 hul

/-- C5: the login route answers Invalid User when no user holds the
phone number, answers Invalid Password when the comparator rejects the
supplied password against the stored hash (both failures carry no
token), and otherwise signs a token whose payload is exactly the id and
role of the user, with the seven-day expiry option, answering it
together with the full user record; under the uniqueness invariant,
login succeeds exactly when some stored user holds the phone number and
the password verifies. -/
theorem login_iff_valid_credentials :
    ∀ (compare : String → String → Bool) (phone pw : String) (users : List User),
    ((users.find? (fun u => u.phoneNumber == phone) = none →
       login compare phone pw users = .failure 400 "Invalid User")
     ∧ (∀ u, users.find? (fun v => v.phoneNumber == phone) = some u →
         ((compare pw u.password = false →
            login compare phone pw users = .failure 400 "Invalid Password")
          ∧ (compare pw u.password = true →
            login compare phone pw users = .success "Login Success"
              { payloadId := u.id, payloadRole := u.role
                secret := "SRI_TRAVELS_SECRET", expiresIn := "7d" } u)))
     ∧ (UniquePhones users →
         ((∃ m tok usr, login compare phone pw users = .success m tok usr) ↔
          (∃ u ∈ users, u.phoneNumber = phone ∧ compare pw u.password = true)))) := by
  intro compare phone pw users
  refine ⟨fun hnone => by simp [login, hnone],
    fun u hfind => ⟨fun hcmp => by simp [login, hfind, hcmp],
      fun hcmp => by simp [login, hfind, hcmp]⟩,
    fun huniq => ⟨?_, ?_⟩⟩
  · rintro ⟨m, tok, usr, hsucc⟩
    cases hfind : users.find? (fun v => v.phoneNumber == phone) with
    | none => simp [login, hfind] at hsucc
    | some u =>
      cases hcmp : compare pw u.password with
      | false => simp [login, hfind, hcmp] at hsucc
      | true =>
        refine ⟨u, List.mem_of_find?_eq_some hfind, ?_, hcmp⟩
        have := List.find?_some hfind
        simpa using this
  · rintro ⟨u, hu, hph, hcmp⟩
    have hfind := find?_phone_of_mem users u phone
      (by simpa [UniquePhones] using ‹UniquePhones users›) hu hph
    exact ⟨"Login Success",
      { payloadId := u.id, payloadRole := u.role
        secret := "SRI_TRAVELS_SECRET", expiresIn := "7d" }, u,
      by simp [login, hfind, hcmp]⟩

/-- C5 witness: on the sample store, login with the stored phone number
and matching password succeeds with a token embedding the stored id and
role and the seven-day expiry, and login with a wrong password fails
with Invalid Password. -/
theorem login_iff_valid_credentials_witness :
    login (fun p s => p == s) "999" "h" usersW
      = .success "Login Success"
        { payloadId := "u1", payloadRole := "customer"
          secret := "SRI_TRAVELS_SECRET", expiresIn := "7d" } userW
    ∧ login (fun p s => p == s) "999" "bad" usersW
      = .failure 400 "Invalid Password" := by
  constructor
  · exact ((login_iff_valid_credentials (fun p s => p == s) "999" "h" usersW).2.1
      userW (by decide)).2 (by decide)
  · exact ((login_iff_valid_credentials (fun p s => p == s) "999" "bad" usersW).2.1
      userW (by decide)).1 (by decide)

/-- C6: the my-bookings result of a caller holds a booking exactly when
the store holds it and its customerId equals the caller id; bookings of
other customers never appear. -/
theorem my_bookings_exact :
    ∀ (callerId : String) (bookings : List Booking) (b : Booking),
    b ∈ myBookings callerId bookings ↔ (b ∈ bookings ∧ b.customerId = callerId) := by
  intro callerId bookings b
  simp [myBookings, List.mem_filter]

/-- C6 witness: on a two-customer store, the caller c1 sees the booking
of c1 and not the booking of c2. -/
theorem my_bookings_exact_witness :
    bW ∈ myBookings "c1" [bW, bOtherW]
    ∧ ¬ bOtherW ∈ myBookings "c1" [bW, bOtherW] := by
  constructor
  · exact (my_bookings_exact "c1" [bW, bOtherW] bW).mpr ⟨by simp, by decide⟩
  · intro hmem
    have := ((my_bookings_exact "c1" [bW, bOtherW] bOtherW).mp hmem).2
    exact absurd this (by decide)

/-- C7: the update-status route always answers 200 Status Updated, keeps
the collection length, leaves every booking with a different id
untouched, and on the booking with the given id overwrites status with
the supplied value, whatever it is, while keeping every other field. -/
theorem update_status_frame :
    ∀ (id st : String) (bookings : List Booking),
    (updateStatusRoute id st bookings).1 = (200, "Status Updated")
    ∧ (updateStatusRoute id st bookings).2.length = bookings.length
    ∧ ∀ (i : Nat) (h1 : i < bookings.length)
        (h2 : i < (updateStatusRoute id st bookings).2.length),
        ((bookings[i].id ≠ id → (updateStatusRoute id st bookings).2[i] = bookings[i])
         ∧ (bookings[i].id = id →
             ((updateStatusRoute id st bookings).2[i].status = st
              ∧ (updateStatusRoute id st bookings).2[i].id = bookings[i].id
              ∧ (updateStatusRoute id st bookings).2[i].customerId
                  = bookings[i].customerId
              ∧ (updateStatusRoute id st bookings).2[i].customerName
                  = bookings[i].customerName
              ∧ (updateStatusRoute id st bookings).2[i].customerPhone
                  = bookings[i].customerPhone
              ∧ (updateStatusRoute id st bookings).2[i].vehicleId
                  = bookings[i].vehicleId
              ∧ (updateStatusRoute id st bookings).2[i].vehicleType
                  = bookings[i].vehicleType
              ∧ (updateStatusRoute id st bookings).2[i].fromLocation
                  = bookings[i].fromLocation
              ∧ (updateStatusRoute id st bookings).2[i].toLocation
                  = bookings[i].toLocation
              ∧ (updateStatusRoute id st bookings).2[i].travelDate
                  = bookings[i].travelDate
              ∧ (updateStatusRoute id st bookings).2[i].amount
                  = bookings[i].amount))) := by
  intro id st bookings
  refine ⟨rfl, by simp [updateStatusRoute], fun i h1 h2 => ?_⟩
  have hg : (updateStatusRoute id st bookings).2[i]
      = (if bookings[i].id == id then { bookings[i] with status := st }
         else bookings[i]) := by
    simp [updateStatusRoute]
  refine ⟨fun hne => ?_, fun heq => ?_⟩
  · rw [hg]
    simp [hne]
  · rw [hg]
    simp [heq]

/-- C7 witness: updating the sample booking to status cancelled answers
Status Updated, sets status to cancelled and keeps the amount. -/
theorem update_status_frame_witness :
    (updateStatusRoute "b1" "cancelled" [bW]).1 = (200, "Status Updated")
    ∧ ((updateStatusRoute "b1" "cancelled" [bW]).2.get ⟨0, by decide⟩).status
        = "cancelled"
    ∧ ((updateStatusRoute "b1" "cancelled" [bW]).2.get ⟨0, by decide⟩).amount
        = some 5 := by
  have h := ((update_status_frame "b1" "cancelled" [bW]).2.2 0 (by decide)
    (by decide)).2 (by decide)
  exact ⟨(update_status_frame "b1" "cancelled" [bW]).1, h.1,
    h.2.2.2.2.2.2.2.2.2.2.trans (by decide)⟩

/-- Folding the amount sum of a booking list equals the initial value
plus the mathematical sum of the amounts, a missing amount counting 0. -/
theorem foldl_amount_sum (l : List Booking) (init : Int) :
    l.foldl (fun sum b => sum + b.amount.getD 0) init
      = init + (l.map (fun b => b.amount.getD 0)).sum := by
  induction l generalizing init with
  | nil => simp
  | cons a t ih => simp [ih, add_assoc]

/-- C8: the revenue route reports as totalRevenue the sum of the amounts
of the bookings whose status is completed, a missing amount contributing
zero, and as totalCompletedTrips the count of those same bookings. -/
theorem revenue_sums_completed :
    ∀ bookings : List Booking,
    (revenueRoute bookings).totalRevenue
      = ((bookings.filter (fun b => b.status == "completed")).map
          (fun b => b.amount.getD 0)).sum
    ∧ (revenueRoute bookings).totalCompletedTrips
      = (bookings.filter (fun b => b.status == "completed")).length := by
  intro bookings
  refine ⟨?_, rfl⟩
  simp [revenueRoute, foldl_amount_sum]

/-- C8 witness: on the sample store with completed amounts 5 and missing
and a pending amount 9, the report is two trips and revenue 5. -/
theorem revenue_sums_completed_witness :
    (revenueRoute bookingsRevW).totalRevenue = 5
    ∧ (revenueRoute bookingsRevW).totalCompletedTrips = 2 := by
  constructor
  · rw [(revenue_sums_completed bookingsRevW).1]
    decide
  · rw [(revenue_sums_completed bookingsRevW).2]
    decide

/-- C9 counterexample: the toggle-user handler, given a store fetch that
fails with message store failure, propagates the failure as an error and
produces no 500 response at all. -/
theorem store_failure_escapes :
    toggleUserHandler (Except.error "store failure") (fun _ => Except.ok ())
      = Except.error "store failure"
    ∧ toggleUserHandler (Except.error "store failure") (fun _ => Except.ok ())
      ≠ Except.ok (500, "store failure") := by
  refine ⟨rfl, ?_⟩
  intro h
  exact Except.noConfusion h

/-- C9 amended: a handler whose body sits in try/catch (register and
book modelled here) answers a failing store call with status 500 and the
raw error message, while a handler without try/catch (toggle-user
modelled here) propagates the failure and produces no response. -/
theorem store_failure_propagation :
    ∀ (e : String) (hashPw : Except String String)
      (save : User → Except String Unit) (saveB : Booking → Except String Unit)
      (saveT : User → Except String Unit) (newId name phone : String)
      (vehicleId : Option String) (vt fl tl : String) (td : Nat)
      (amount : Option Int),
    registerHandler (Except.error e) hashPw save newId name phone = (500, e)
    ∧ bookHandler (Except.error e) saveB newId vehicleId vt fl tl td amount
        = (500, e)
    ∧ toggleUserHandler (Except.error e) saveT = Except.error e := by
  intro e hashPw save saveB saveT newId name phone vehicleId vt fl tl td amount
  exact ⟨rfl, rfl, rfl⟩

end SriTravels
